import Mathlib

/-!
Shallow embedding of the yawe workflow engine core
(`src/workflow_engine/core/workflow.py` and
`src/workflow_engine/core/state_manager.py`).

Python dictionaries are modelled by association lists that keep insertion
order and update values in place, mirroring CPython dict semantics.
Task runtime behaviour (the `TaskFactory.create(...).execute()` call and the
`export_context()` call) is an oracle parameter, since concrete task classes
are external collaborators of the engine loop.
-/

namespace Yawe

/-- Association-list lookup, mirroring Python `d[k]` / `k in d`. -/
def alGet {α : Type} : List (String × α) → String → Option α
  | [], _ => none
  | (k, v) :: rest, key => if k = key then some v else alGet rest key

/-- Association-list update, mirroring Python `d[k] = v`:
an existing key keeps its position, a new key is appended. -/
def alSet {α : Type} : List (String × α) → String → α → List (String × α)
  | [], key, v => [(key, v)]
  | (k, w) :: rest, key, v =>
      if k = key then (k, v) :: rest else (k, w) :: alSet rest key v

/-- The workflow-level variable context: task name ↦ that task's exported
variables (`WorkflowEngine.workflow_context`). -/
abbrev Ctx := List (String × List (String × String))

/-- Two-level lookup `workflow_context[name][key]`. -/
def ctxGet2 (wc : Ctx) (name key : String) : Option String :=
  (alGet wc name).bind (fun inner => alGet inner key)

/-- Python truthiness of an optional string, as used by `if not task_type`:
absent keys and empty strings are falsy. -/
def strTruthy : Option String → Bool
  | none => false
  | some s => !s.isEmpty

/-- Static task configuration: the fields of a task dict that the engine
loop reads (`task_config.get(...)` in `WorkflowEngine.run`). -/
structure TaskConfig where
  name : Option String
  type : Option String
  enabled : Bool := true
  fail_on_error : Bool := true
deriving DecidableEq

/-- Effective task name: `task_config.get('name', f'task_{idx}')`
with `idx` the 1-based position. -/
def effectiveName (idx : Nat) (tc : TaskConfig) : String :=
  tc.name.getD ("task_" ++ toString idx)

/-- The 1-based effective names of a task list. -/
def effectiveNamesFrom (idx : Nat) : List TaskConfig → List String
  | [] => []
  | tc :: rest => effectiveName idx tc :: effectiveNamesFrom (idx + 1) rest

def effectiveNames (cfgs : List TaskConfig) : List String :=
  effectiveNamesFrom 1 cfgs

/-- The duplicate-name scan at the top of `WorkflowEngine.run`
(lines 64-72): walk the configs keeping the set of names seen,
returning the first repeated effective name. -/
def firstDuplicateFrom (seen : List String) (idx : Nat) :
    List TaskConfig → Option String
  | [] => none
  | tc :: rest =>
      let n := effectiveName idx tc
      if n ∈ seen then some n else firstDuplicateFrom (n :: seen) (idx + 1) rest

def firstDuplicate (cfgs : List TaskConfig) : Option String :=
  firstDuplicateFrom [] 1 cfgs

/-- Per-task persisted state (`TaskState` entries of the snapshot). -/
structure TaskState where
  name : String
  type : String
  status : String
  start_time : Option String
  end_time : Option String
  message : String
  exported_context : List (String × String)
deriving DecidableEq

/-- Snapshot metadata, as created by `WorkflowStateManager.create_state`. -/
structure Metadata where
  config_file : String
  config_hash : String
  run_id : String
  start_time : String
  last_update : String
  workflow_status : String
  stop_on_first_error : Bool
  total_tasks : Nat
deriving DecidableEq

/-- A full workflow snapshot. -/
structure WorkflowState where
  version : String
  metadata : Metadata
  tasks : List TaskState
  workflow_context : Ctx
deriving DecidableEq

def STATE_VERSION : String := "1.0"

/-- TaskState list built by `WorkflowStateManager.create_state`
(1-based enumeration of the configured tasks, all pending). -/
def createTasksFrom (idx : Nat) : List TaskConfig → List TaskState
  | [] => []
  | tc :: rest =>
      { name := effectiveName idx tc
        type := tc.type.getD "unknown"
        status := "pending"
        start_time := none
        end_time := none
        message := ""
        exported_context := [] } :: createTasksFrom (idx + 1) rest

def createState (cfgs : List TaskConfig) (stopOnFirstError : Bool)
    (configFile configHash runId now : String) : WorkflowState :=
  { version := STATE_VERSION
    metadata :=
      { config_file := configFile
        config_hash := configHash
        run_id := runId
        start_time := now
        last_update := now
        workflow_status := "running"
        stop_on_first_error := stopOnFirstError
        total_tasks := (createTasksFrom 1 cfgs).length }
    tasks := createTasksFrom 1 cfgs
    workflow_context := [] }

/-- Embeds `WorkflowEngine._find_resume_point`: 1-based index of the first task
state whose status is failed, running or pending; 1 when none matches. -/
def findResumePointFrom (idx : Nat) : List TaskState → Nat
  | [] => 1
  | t :: rest =>
      if t.status = "failed" ∨ t.status = "running" ∨ t.status = "pending"
      then idx + 1
      else findResumePointFrom (idx + 1) rest

def findResumePoint (tasks : List TaskState) : Nat :=
  findResumePointFrom 0 tasks

/-- Embeds `WorkflowEngine._find_task_index`: 1-based index of the first config
whose effective name matches, `-1` when absent. -/
def findTaskIndexFrom (idx : Nat) (nm : String) : List TaskConfig → Int
  | [] => -1
  | tc :: rest =>
      if effectiveName idx tc = nm then (idx : Int)
      else findTaskIndexFrom (idx + 1) nm rest

def findTaskIndex (nm : String) (cfgs : List TaskConfig) : Int :=
  findTaskIndexFrom 1 nm cfgs

/-- Embeds `WorkflowEngine._update_task_state`: bounds-checked in-place update of
one TaskState plus the metadata `last_update` timestamp; out-of-range
indices only log a warning and leave the state untouched. -/
def updateTaskState (st : WorkflowState) (task_index : Nat)
    (status message : String) (exported_vars : List (String × String))
    (now : String) : WorkflowState :=
  if st.tasks.length ≤ task_index then st
  else
    match st.tasks.get? task_index with
    | none => st
    | some ts =>
        let ts' : TaskState :=
          { ts with
            status := status
            message := message
            start_time := if status = "running" then some now else ts.start_time
            end_time := if status = "running" then ts.end_time else some now
            exported_context :=
              if exported_vars.isEmpty then ts.exported_context
              else exported_vars }
        { st with
          tasks := st.tasks.set task_index ts'
          metadata := { st.metadata with last_update := now } }

/-- The variable-merge block of the success branch of `WorkflowEngine.run`
(lines 162-172): when any variables were exported, make sure the task's
namespace exists, then write each exported key into it. -/
def mergeExports (wc : Ctx) (name : String)
    (vars : List (String × String)) : Ctx :=
  if vars.isEmpty then wc
  else
    let wc1 := match alGet wc name with
      | some _ => wc
      | none => alSet wc name []
    vars.foldl
      (fun acc kv => alSet acc name (alSet ((alGet acc name).getD []) kv.1 kv.2))
      wc1

/-- Result of `TaskFactory.create(...) ... task.execute()` for one loop
iteration: either a normal `(success, message)` pair or a raised exception
(caught by the `except` arm of the loop). -/
inductive ExecResult where
  | ok (success : Bool) (message : String)
  | exn (message : String)
deriving DecidableEq

/-- Result of `task.export_context()`: a variable mapping or a raised
exception (caught inside the success branch). -/
inductive ExportResult where
  | ok (vars : List (String × String))
  | exn (message : String)
deriving DecidableEq

/-- Runtime oracle for the external task collaborators, indexed by the
1-based task position. -/
structure Behavior where
  exec : Nat → ExecResult
  exportCtx : Nat → ExportResult

/-- The engine's inputs: task list, resolved settings, and the mode
selectors of `WorkflowEngine.__init__` plus the ambient clock/config
identity used by the state manager. -/
structure Env where
  tasks_config : List TaskConfig
  stop_on_first_error : Bool := true
  hasStateManager : Bool := true
  resume_state : Option WorkflowState := none
  from_task : Option String := none
  config_file : String := "config.yaml"
  config_hash : String := "00000000"
  run_id : String := "run"
  now : String := "now"

/-- Mutable engine state threaded through the per-task loop. -/
structure LoopState where
  wc : Ctx
  executedTasks : List String
  failedTasks : List (String × String)
  skippedTasks : List String
  currentState : Option WorkflowState
  saves : List WorkflowState
deriving DecidableEq

/-- Outcome of one loop iteration: `continue` to the next task or `break`
out of the loop. -/
inductive StepOut where
  | cont (ls : LoopState)
  | brk (ls : LoopState)
deriving DecidableEq

def StepOut.loopState : StepOut → LoopState
  | .cont ls => ls
  | .brk ls => ls

def StepOut.isBrk : StepOut → Bool
  | .cont _ => false
  | .brk _ => true

/-- Embeds `if self.state_manager and self.current_state:` followed by
`_update_task_state(...)` and `save_state(...)` (the save itself bumps
`last_update`, see `WorkflowStateManager.save_state`). -/
def updateAndSave (env : Env) (ls : LoopState) (tidx : Nat)
    (status message : String) (vars : List (String × String)) : LoopState :=
  if env.hasStateManager then
    match ls.currentState with
    | some st =>
        let st1 := updateTaskState st tidx status message vars env.now
        let st2 := { st1 with metadata := { st1.metadata with last_update := env.now } }
        { ls with currentState := some st2, saves := ls.saves ++ [st2] }
    | none => ls
  else ls

/-- The success branch additionally copies the in-memory
`workflow_context` into the snapshot before saving. -/
def updateAndSaveSuccess (env : Env) (ls : LoopState) (tidx : Nat)
    (message : String) (vars : List (String × String)) : LoopState :=
  if env.hasStateManager then
    match ls.currentState with
    | some st =>
        let st1 := updateTaskState st tidx "success" message vars env.now
        let st2 := { st1 with workflow_context := ls.wc }
        let st3 := { st2 with metadata := { st2.metadata with last_update := env.now } }
        { ls with currentState := some st3, saves := ls.saves ++ [st3] }
    | none => ls
  else ls

/-- The whole success branch of the loop (lines 155-185): merge the
exported variables into the context under the task's own name, then
persist the success transition. -/
def onSuccess (env : Env) (idx : Nat) (name message : String)
    (exported : List (String × String)) (ls : LoopState) : LoopState :=
  let ls1 := { ls with wc := mergeExports ls.wc name exported }
  updateAndSaveSuccess env ls1 (idx - 1) message exported

/-- One iteration of the per-task loop of `WorkflowEngine.run`
(lines 111-223), for the task at 1-based position `idx`. -/
def processTask (env : Env) (beh : Behavior) (resumeIdx : Nat)
    (idx : Nat) (tc : TaskConfig) (ls : LoopState) : StepOut :=
  let name := effectiveName idx tc
  if (env.resume_state.isSome || env.from_task.isSome) && idx < resumeIdx then
    .cont { ls with skippedTasks := ls.skippedTasks ++ [name] }
  else if !tc.enabled then
    .cont { ls with skippedTasks := ls.skippedTasks ++ [name] }
  else if !(strTruthy tc.type) then
    let ls1 := { ls with failedTasks := ls.failedTasks ++ [(name, "缺少type字段")] }
    if env.stop_on_first_error then .brk ls1 else .cont ls1
  else
    let ls1 := updateAndSave env ls (idx - 1) "running" "" []
    match beh.exec idx with
    | .exn emsg =>
        let ls2 := { ls1 with failedTasks := ls1.failedTasks ++ [(name, emsg)] }
        let ls3 := updateAndSave env ls2 (idx - 1) "failed" emsg []
        if tc.fail_on_error && env.stop_on_first_error then .brk ls3 else .cont ls3
    | .ok success message =>
        let ls2 := { ls1 with executedTasks := ls1.executedTasks ++ [name] }
        if success then
          let exported := match beh.exportCtx idx with
            | .ok vars => vars
            | .exn _ => []
          .cont (onSuccess env idx name message exported ls2)
        else
          let ls3 := { ls2 with failedTasks := ls2.failedTasks ++ [(name, message)] }
          let ls4 := updateAndSave env ls3 (idx - 1) "failed" message []
          if tc.fail_on_error && env.stop_on_first_error then .brk ls4 else .cont ls4

/-- The loop itself: iterate `processTask` in declaration order, stopping
early on a `break`. -/
def runLoop (env : Env) (beh : Behavior) (resumeIdx : Nat) :
    Nat → List TaskConfig → LoopState → LoopState
  | _, [], ls => ls
  | idx, tc :: rest, ls =>
      match processTask env beh resumeIdx idx tc ls with
      | .cont ls' => runLoop env beh resumeIdx (idx + 1) rest ls'
      | .brk ls' => ls'

/-- Early-exit results of `run` before the loop starts. -/
inductive RunError where
  | duplicateName (name : String)
  | taskNotFound (name : String) (available : List String)
deriving DecidableEq

/-- Observable outcome of `WorkflowEngine.run`. -/
structure RunResult where
  exitCode : Nat
  executedTasks : List String
  failedTasks : List (String × String)
  skippedTasks : List String
  workflow_context : Ctx
  currentState : Option WorkflowState
  saves : List WorkflowState
  error : Option RunError
deriving DecidableEq

/-- The post-loop epilogue (lines 225-235): persist the final workflow
status and return the failed-task count. -/
def finishRun (env : Env) (ls : LoopState) : RunResult :=
  let ls' :=
    if env.hasStateManager then
      match ls.currentState with
      | some st =>
          let st1 :=
            { st with metadata :=
              { st.metadata with
                workflow_status :=
                  if ls.failedTasks.length = 0 then "success" else "failed" } }
          let st2 := { st1 with metadata := { st1.metadata with last_update := env.now } }
          { ls with currentState := some st2, saves := ls.saves ++ [st2] }
      | none => ls
    else ls
  { exitCode := ls'.failedTasks.length
    executedTasks := ls'.executedTasks
    failedTasks := ls'.failedTasks
    skippedTasks := ls'.skippedTasks
    workflow_context := ls'.wc
    currentState := ls'.currentState
    saves := ls'.saves
    error := none }

/-- Fresh loop state for a given initial context and snapshot. -/
def initLoopState (wc : Ctx) (cs : Option WorkflowState)
    (saves : List WorkflowState) : LoopState :=
  { wc := wc, executedTasks := [], failedTasks := [], skippedTasks := []
    currentState := cs, saves := saves }

/-- Embeds `WorkflowEngine.run` (lines 49-235). -/
def runEngine (env : Env) (beh : Behavior) : RunResult :=
  if env.tasks_config.isEmpty then
    { exitCode := 0, executedTasks := [], failedTasks := [], skippedTasks := []
      workflow_context := [], currentState := none, saves := [], error := none }
  else
    match firstDuplicate env.tasks_config with
    | some n =>
        { exitCode := 1, executedTasks := [], failedTasks := [], skippedTasks := []
          workflow_context := [], currentState := none, saves := []
          error := some (.duplicateName n) }
    | none =>
        match env.resume_state with
        | some ss =>
            let resumeIdx := findResumePoint ss.tasks
            let ls0 := initLoopState ss.workflow_context (some ss) []
            finishRun env (runLoop env beh resumeIdx 1 env.tasks_config ls0)
        | none =>
            match env.from_task with
            | some nm =>
                let i := findTaskIndex nm env.tasks_config
                if i = -1 then
                  { exitCode := 1, executedTasks := [], failedTasks := []
                    skippedTasks := [], workflow_context := []
                    currentState := none, saves := []
                    error := some (.taskNotFound nm (effectiveNames env.tasks_config)) }
                else
                  let st0 := createState env.tasks_config env.stop_on_first_error
                    env.config_file env.config_hash env.run_id env.now
                  let ls0 :=
                    if env.hasStateManager then initLoopState [] (some st0) [st0]
                    else initLoopState [] none []
                  finishRun env (runLoop env beh i.toNat 1 env.tasks_config ls0)
            | none =>
                let st0 := createState env.tasks_config env.stop_on_first_error
                  env.config_file env.config_hash env.run_id env.now
                let ls0 :=
                  if env.hasStateManager then initLoopState [] (some st0) [st0]
                  else initLoopState [] none []
                finishRun env (runLoop env beh 0 1 env.tasks_config ls0)

/-! ### `WorkflowStateManager.validate_state`

A snapshot loaded from JSON may miss keys, so validation works on a raw
shape where every dict access yields an `Option`. -/

/-- Raw snapshot metadata as seen by `validate_state`: the three fields of
its `required_fields` list, each possibly absent. -/
structure RawMetadata where
  config_hash : Option String
  run_id : Option String
  start_time : Option String
deriving DecidableEq

/-- Raw snapshot as seen by `validate_state`: `version`, `metadata` and
`tasks` keys possibly absent. -/
structure RawState where
  version : Option String
  metadata : Option RawMetadata
  hasTasks : Bool
deriving DecidableEq

/-- The config-drift error text of `validate_state` (lines 214-222),
interpolating the stored and current hashes exactly as the f-string does. -/
def hashMismatchMsg (stateHash currentHash : String) : String :=
  "配置文件已变更,无法恢复!\n"
    ++ "状态文件配置hash: " ++ stateHash ++ "\n"
    ++ "当前配置文件hash: " ++ currentHash ++ "\n\n"
    ++ "解决方案:\n"
    ++ "1. 放弃恢复,重新运行: python3 src/coordinator.py\n"
    ++ "2. 强制恢复(使用新配置): python3 src/coordinator.py -r --force\n\n"
    ++ "注意: 强制恢复可能导致不一致,请谨慎使用!"

/-- Embeds `WorkflowStateManager.validate_state(state, force)`; `currentHash` is
the result of `calculate_config_hash()` on the configuration currently in
use. Returns `(valid, error_message)`. -/
def validate_state (currentHash : String) (state : RawState)
    (force : Bool) : Bool × String :=
  if state.version ≠ some STATE_VERSION then
    (false, "状态文件版本不兼容 (文件版本: "
      ++ (state.version.getD "None") ++ ", 当前版本: " ++ STATE_VERSION ++ ")")
  else
    match state.metadata with
    | none => (false, "状态文件缺少必要字段")
    | some md =>
        if !state.hasTasks then (false, "状态文件缺少必要字段")
        else if md.config_hash.isNone then
          (false, "元数据缺少必要字段: config_hash")
        else if md.run_id.isNone then
          (false, "元数据缺少必要字段: run_id")
        else if md.start_time.isNone then
          (false, "元数据缺少必要字段: start_time")
        else if !force then
          let state_hash := md.config_hash.getD ""
          if currentHash ≠ state_hash then
            (false, hashMismatchMsg state_hash currentHash)
          else (true, "")
        else (true, "")

/-! ### `WorkflowStateManager.save_state`

Modelled over an explicit filesystem: a map from path to file content.
A content is either a complete serialized snapshot or a torn fragment
(what a failing `json.dump` leaves in the temporary file). The model
exposes the sequence of filesystem snapshots a concurrent reader could
observe. -/

/-- What a file under the state directory can hold. -/
inductive FileContent where
  | full (st : WorkflowState)
  | torn (raw : String)
deriving DecidableEq

/-- A filesystem: path ↦ content. -/
def FS := String → Option FileContent

def fsGet (fs : FS) (p : String) : Option FileContent := fs p

/-- Models `open(p, 'w')` followed by a complete write of `c`. -/
def fsSet (fs : FS) (p : String) (c : FileContent) : FS :=
  fun q => if q = p then some c else fs q

/-- Models `os.rename(src, dst)`: atomic replace. -/
def fsRename (fs : FS) (src dst : String) : FS :=
  fun q => if q = dst then fs src else if q = src then none else fs q

def STATE_DIR : String := "logs/.workflow_state"

/-- Embeds `WorkflowStateManager._get_state_file_path`. -/
def stateFilePath (md : Metadata) : String :=
  STATE_DIR ++ "/workflow_state_" ++ md.config_hash ++ "_" ++ md.run_id ++ ".json"

/-- Outcome of one `save_state` call: final filesystem, the sequence of
filesystems a reader could observe during the call, the (mutated) state
argument, and whether the error branch ran. -/
structure SaveOutcome where
  fs : FS
  trace : List FS
  state : WorkflowState
  errorLogged : Bool

/-- Embeds `WorkflowStateManager.save_state(state)` (lines 103-129): bump
`last_update`, dump the snapshot to `<canonical>.tmp`, then atomically
rename onto the canonical path. `failure = some raw` injects a write
failure that leaves the fragment `raw` in the temporary file; the
surrounding `try/except` turns it into a log line, never an exception. -/
def save_state (fs : FS) (st : WorkflowState) (now : String)
    (failure : Option String) : SaveOutcome :=
  let st' := { st with metadata := { st.metadata with last_update := now } }
  let canon := stateFilePath st'.metadata
  let temp := canon ++ ".tmp"
  match failure with
  | none =>
      let fs1 := fsSet fs temp (.full st')
      let fs2 := fsRename fs1 temp canon
      { fs := fs2, trace := [fs, fs1, fs2], state := st', errorLogged := false }
  | some raw =>
      let fs1 := fsSet fs temp (.torn raw)
      { fs := fs1, trace := [fs, fs1], state := st', errorLogged := true }

/-! ### Generic helper lemmas -/

theorem alGet_alSet_same {α : Type} (l : List (String × α)) (k : String) (v : α) :
    alGet (alSet l k v) k = some v := by
  induction l with
  | nil => simp [alSet, alGet]
  | cons hd tl ih =>
      by_cases h : hd.1 = k
      · simp [alSet, alGet, h]
      · simp [alSet, alGet, h, ih]

theorem alGet_alSet_ne {α : Type} (l : List (String × α)) (k k' : String) (v : α)
    (h : k ≠ k') : alGet (alSet l k v) k' = alGet l k' := by
  induction l with
  | nil => simp [alSet, alGet, h]
  | cons hd tl ih =>
      by_cases hh : hd.1 = k
      · simp [alSet, alGet, hh, h]
      · by_cases hh' : hd.1 = k'
        · simp [alSet, alGet, hh, hh', Ne.symm h]
        · simp [alSet, alGet, hh, hh', ih]

theorem getLast?_append_singleton {α : Type} (l : List α) (a : α) :
    (l ++ [a]).getLast? = some a := by
  simp [List.getLast?_append]

/-! ### Lemmas about the embedded operations -/

theorem mergeExports_nil (wc : Ctx) (n : String) :
    mergeExports wc n [] = wc := rfl

/-- A merge under namespace `n` leaves every other namespace untouched. -/
theorem ctxGet2_mergeExports_other (wc : Ctx) (n m k : String)
    (vars : List (String × String)) (h : m ≠ n) :
    ctxGet2 (mergeExports wc n vars) m k = ctxGet2 wc m k := by
  unfold mergeExports
  cases hv : vars.isEmpty
  · simp only [Bool.false_eq_true, if_false]
    have hfold : ∀ (vs : List (String × String)) (acc : Ctx),
        alGet (vs.foldl
          (fun acc kv => alSet acc n (alSet ((alGet acc n).getD []) kv.1 kv.2)) acc) m
        = alGet acc m := by
      intro vs
      induction vs with
      | nil => intro acc; rfl
      | cons hd tl ih =>
          intro acc
          rw [List.foldl_cons, ih]
          exact alGet_alSet_ne _ _ _ _ (fun hnm => h hnm.symm)
    unfold ctxGet2
    rw [hfold]
    cases hg : alGet wc n
    · simp only [hg]
      rw [alGet_alSet_ne _ _ _ _ (fun hnm => h hnm.symm)]
    · simp only [hg]
  · simp [if_pos, hv]

/-- Merging a single exported variable makes it retrievable under the
task's own namespace. -/
theorem ctxGet2_mergeExports_own (wc : Ctx) (n k : String) (v : String) :
    ctxGet2 (mergeExports wc n [(k, v)]) n k = some v := by
  unfold mergeExports ctxGet2
  simp only [List.isEmpty_cons, Bool.false_eq_true, if_false, List.foldl_cons,
    List.foldl_nil]
  cases hg : alGet wc n <;>
    simp [hg, alGet_alSet_same]

/-! ### Claim theorems -/

/-- C10: `_update_task_state` with a task index at or beyond the end of
the snapshot's TaskState list leaves the snapshot completely unchanged
(the transition is dropped, no index error is possible). -/
theorem updateTaskState_out_of_range (st : WorkflowState) (i : Nat)
    (status message : String) (vars : List (String × String)) (now : String)
    (h : st.tasks.length ≤ i) :
    updateTaskState st i status message vars now = st := by
  unfold updateTaskState
  simp [h]

def sampleMeta : Metadata :=
  { config_file := "config.yaml"
    config_hash := "abcd1234"
    run_id := "20251129_120000"
    start_time := "2025-11-29 12:00:00"
    last_update := "2025-11-29 12:00:00"
    workflow_status := "running"
    stop_on_first_error := true
    total_tasks := 1 }

def sampleTaskState : TaskState :=
  { name := "t1"
    type := "command"
    status := "pending"
    start_time := none
    end_time := none
    message := ""
    exported_context := [] }

def sampleSnapshot : WorkflowState :=
  { version := "1.0"
    metadata := sampleMeta
    tasks := [sampleTaskState]
    workflow_context := [] }

/-- Witness for C10: updating task index 3 of a 1-task snapshot is a no-op. -/
theorem updateTaskState_out_of_range_witness :
    updateTaskState sampleSnapshot 3 "failed" "boom" [] "2025-11-29 13:00:00"
      = sampleSnapshot :=
  updateTaskState_out_of_range sampleSnapshot 3 "failed" "boom" []
    "2025-11-29 13:00:00" (by decide)

/-- C3: a duplicate effective task name makes `run` return 1
immediately: no task executes, no snapshot is created or saved, and the
run records no other activity. -/
theorem duplicate_names_abort (env : Env) (beh : Behavior) (n : String)
    (h : firstDuplicate env.tasks_config = some n) :
    runEngine env beh =
      { exitCode := 1, executedTasks := [], failedTasks := [], skippedTasks := []
        workflow_context := [], currentState := none, saves := []
        error := some (.duplicateName n) } := by
  have hne : env.tasks_config.isEmpty = false := by
    cases hc : env.tasks_config with
    | nil => rw [hc] at h; simp [firstDuplicate, firstDuplicateFrom] at h
    | cons a l => simp [hc]
  unfold runEngine
  rw [hne, h]
  rfl

def dupEnv : Env :=
  { tasks_config :=
      [ { name := some "build", type := some "command" }
      , { name := some "build", type := some "command" } ] }

def idleBeh : Behavior :=
  { exec := fun _ => .ok true "done", exportCtx := fun _ => .ok [] }

/-- Witness for C3 at a concrete duplicate-name configuration. -/
theorem duplicate_names_abort_witness :
    runEngine dupEnv idleBeh =
      { exitCode := 1, executedTasks := [], failedTasks := [], skippedTasks := []
        workflow_context := [], currentState := none, saves := []
        error := some (.duplicateName "build") } :=
  duplicate_names_abort dupEnv idleBeh "build" (by decide)

/-- The stored hash appears verbatim in the drift error message. -/
theorem stateHash_infix_mismatchMsg (sh ch : String) :
    sh.data <:+: (hashMismatchMsg sh ch).data := by
  unfold hashMismatchMsg
  refine ⟨("配置文件已变更,无法恢复!\n" ++ "状态文件配置hash: ").data, ?_, ?_⟩
  · exact ("\n" ++ "当前配置文件hash: " ++ ch ++ "\n\n" ++ "解决方案:\n"
      ++ "1. 放弃恢复,重新运行: python3 src/coordinator.py\n"
      ++ "2. 强制恢复(使用新配置): python3 src/coordinator.py -r --force\n\n"
      ++ "注意: 强制恢复可能导致不一致,请谨慎使用!").data
  · simp [String.data_append]

/-- The current hash appears verbatim in the drift error message. -/
theorem currentHash_infix_mismatchMsg (sh ch : String) :
    ch.data <:+: (hashMismatchMsg sh ch).data := by
  unfold hashMismatchMsg
  refine ⟨("配置文件已变更,无法恢复!\n" ++ "状态文件配置hash: " ++ sh ++ "\n"
      ++ "当前配置文件hash: ").data, ?_, ?_⟩
  · exact ("\n\n" ++ "解决方案:\n"
      ++ "1. 放弃恢复,重新运行: python3 src/coordinator.py\n"
      ++ "2. 强制恢复(使用新配置): python3 src/coordinator.py -r --force\n\n"
      ++ "注意: 强制恢复可能导致不一致,请谨慎使用!").data
  · simp [String.data_append]

/-- C6: `validate_state`: (a) a version mismatch fails even with
`force`; (b) without `force`, a config-hash mismatch fails with an error
message that contains both hash values verbatim; (c) with `force`, a hash
mismatch alone does not fail when the version matches and the required
metadata fields are present. -/
theorem validate_state_spec (currentHash : String) (st : RawState) (force : Bool) :
    (st.version ≠ some STATE_VERSION → (validate_state currentHash st force).1 = false)
    ∧ (∀ md : RawMetadata, st.version = some STATE_VERSION → st.metadata = some md →
        st.hasTasks = true → md.run_id.isSome → md.start_time.isSome →
        ∀ sh : String, md.config_hash = some sh → sh ≠ currentHash →
          validate_state currentHash st false = (false, hashMismatchMsg sh currentHash)
          ∧ sh.data <:+: (hashMismatchMsg sh currentHash).data
          ∧ currentHash.data <:+: (hashMismatchMsg sh currentHash).data)
    ∧ (∀ md : RawMetadata, st.version = some STATE_VERSION → st.metadata = some md →
        st.hasTasks = true → md.config_hash.isSome → md.run_id.isSome →
        md.start_time.isSome →
        validate_state currentHash st true = (true, "")) := by
  refine ⟨?_, ?_, ?_⟩
  · intro hv
    unfold validate_state
    simp [hv]
  · intro md hv hmd htasks hrun hstart sh hsh hne
    have hmsg : validate_state currentHash st false
        = (false, hashMismatchMsg sh currentHash) := by
      unfold validate_state
      rw [hv]
      simp only [ne_eq, not_true_eq_false, if_false, hmd, htasks]
      simp [hsh, Option.isSome_iff_ne_none.mp hrun,
        Option.isSome_iff_ne_none.mp hstart, Ne.symm hne]
    exact ⟨hmsg, stateHash_infix_mismatchMsg sh currentHash,
      currentHash_infix_mismatchMsg sh currentHash⟩
  · intro md hv hmd htasks hhash hrun hstart
    unfold validate_state
    rw [hv]
    simp only [ne_eq, not_true_eq_false, if_false, hmd, htasks]
    simp [Option.isSome_iff_ne_none.mp hhash, Option.isSome_iff_ne_none.mp hrun,
      Option.isSome_iff_ne_none.mp hstart]

def driftedRaw : RawState :=
  { version := some "1.0"
    metadata := some { config_hash := some "aaaaaaaa"
                       run_id := some "r1"
                       start_time := some "s1" }
    hasTasks := true }

/-- Witness for C6: at a concrete drifted snapshot, no-force validation
fails with both hashes in the message while forced validation succeeds,
and a wrong-version snapshot fails even with force. -/
theorem validate_state_spec_witness :
    (validate_state "bbbbbbbb" { driftedRaw with version := some "0.9" } true).1 = false
    ∧ (validate_state "bbbbbbbb" driftedRaw false
        = (false, hashMismatchMsg "aaaaaaaa" "bbbbbbbb"))
    ∧ validate_state "bbbbbbbb" driftedRaw true = (true, "") := by
  refine ⟨?_, ?_, ?_⟩
  · exact (validate_state_spec "bbbbbbbb"
      { driftedRaw with version := some "0.9" } true).1 (by decide)
  · exact ((validate_state_spec "bbbbbbbb" driftedRaw false).2.1
      { config_hash := some "aaaaaaaa", run_id := some "r1", start_time := some "s1" }
      rfl rfl rfl (by decide) (by decide) "aaaaaaaa" rfl (by decide)).1
  · exact (validate_state_spec "bbbbbbbb" driftedRaw true).2.2
      { config_hash := some "aaaaaaaa", run_id := some "r1", start_time := some "s1" }
      rfl rfl rfl (by decide) (by decide) (by decide)

/-- The temporary path `s ++ ".tmp"` is a different path from `s`. -/
theorem tmpPath_ne (s : String) : s ++ ".tmp" ≠ s := by
  intro h
  have hl := congrArg String.length h
  rw [String.length_append] at hl
  have h4 : (".tmp" : String).length = 4 := rfl
  omega

theorem fsGet_fsSet_ne (fs : FS) (p q : String) (c : FileContent) (h : q ≠ p) :
    fsGet (fsSet fs p c) q = fsGet fs q := by
  unfold fsGet fsSet
  rw [if_neg h]

theorem fsGet_fsRename_dst (fs : FS) (src dst : String) :
    fsGet (fsRename fs src dst) dst = fsGet fs src := by
  unfold fsGet fsRename
  simp

/-- C9: `save_state` never surfaces an error (write failures are only
logged), it updates the state's `last_update` metadata first, writes the
snapshot to a distinct temporary path, and installs it at the canonical
path with one atomic rename: every filesystem a concurrent reader can
observe holds either the previous canonical content or the complete new
snapshot at the canonical path, never a torn write, and an injected write
failure leaves the canonical path untouched. -/
theorem save_state_atomic (fs : FS) (st : WorkflowState) (now : String)
    (failure : Option String) :
    (save_state fs st now failure).state.metadata.last_update = now
    ∧ stateFilePath (save_state fs st now failure).state.metadata ++ ".tmp"
        ≠ stateFilePath (save_state fs st now failure).state.metadata
    ∧ (∀ fs' ∈ (save_state fs st now failure).trace,
        fsGet fs' (stateFilePath (save_state fs st now failure).state.metadata)
          = fsGet fs (stateFilePath (save_state fs st now failure).state.metadata)
        ∨ fsGet fs' (stateFilePath (save_state fs st now failure).state.metadata)
          = some (.full (save_state fs st now failure).state))
    ∧ (failure.isSome = true →
        (save_state fs st now failure).errorLogged = true
        ∧ fsGet (save_state fs st now failure).fs
            (stateFilePath (save_state fs st now failure).state.metadata)
          = fsGet fs (stateFilePath (save_state fs st now failure).state.metadata)) := by
  cases failure with
  | none =>
      refine ⟨rfl, tmpPath_ne _, ?_, by intro h; cases h⟩
      intro fs' hmem
      simp only [save_state, List.mem_cons, List.not_mem_nil, or_false] at hmem ⊢
      rcases hmem with h | h | h
      · left; rw [h]
      · left
        rw [h, fsGet_fsSet_ne _ _ _ _ (Ne.symm (tmpPath_ne _))]
      · right
        rw [h, fsGet_fsRename_dst]
        rw [fsGet, fsSet, if_pos rfl]
  | some raw =>
      refine ⟨rfl, tmpPath_ne _, ?_, ?_⟩
      · intro fs' hmem
        simp only [save_state, List.mem_cons, List.not_mem_nil, or_false] at hmem ⊢
        rcases hmem with h | h
        · left; rw [h]
        · left
          rw [h, fsGet_fsSet_ne _ _ _ _ (Ne.symm (tmpPath_ne _))]
      · intro _
        refine ⟨rfl, ?_⟩
        simp only [save_state]
        rw [fsGet_fsSet_ne _ _ _ _ (Ne.symm (tmpPath_ne _))]

/-- The empty filesystem. -/
def emptyFS : FS := fun _ => none

/-- Witness for C9: a concrete successful save stamps `last_update` and
the canonical path afterwards holds either the old content or the complete
new snapshot. -/
theorem save_state_atomic_witness :
    (save_state emptyFS sampleSnapshot "2025-11-29 14:00:00" none).state.metadata.last_update
      = "2025-11-29 14:00:00"
    ∧ (fsGet (save_state emptyFS sampleSnapshot "2025-11-29 14:00:00" none).fs
        (stateFilePath (save_state emptyFS sampleSnapshot "2025-11-29 14:00:00" none).state.metadata)
      = fsGet emptyFS
        (stateFilePath (save_state emptyFS sampleSnapshot "2025-11-29 14:00:00" none).state.metadata)
      ∨ fsGet (save_state emptyFS sampleSnapshot "2025-11-29 14:00:00" none).fs
        (stateFilePath (save_state emptyFS sampleSnapshot "2025-11-29 14:00:00" none).state.metadata)
      = some (.full (save_state emptyFS sampleSnapshot "2025-11-29 14:00:00" none).state)) := by
  constructor
  · exact (save_state_atomic emptyFS sampleSnapshot "2025-11-29 14:00:00" none).1
  · exact (save_state_atomic emptyFS sampleSnapshot "2025-11-29 14:00:00" none).2.2.1
      (save_state emptyFS sampleSnapshot "2025-11-29 14:00:00" none).fs
      (by simp [save_state])

/-- Whether a task invocation counts as failing in the loop: `execute`
returned `False`, or raised. -/
def execFails : ExecResult → Bool
  | .ok s _ => !s
  | .exn _ => true

def c1Env : Env :=
  { tasks_config :=
      [ { name := some "t1", type := none, enabled := true, fail_on_error := false }
      , { name := some "t2", type := some "command" } ]
    hasStateManager := false }

/-- C1 counterexample: with `stop_on_first_error = true`, a task whose
spec lacks a type tag and carries `fail_on_error = false` still stops the
run: the second task is never reached (it is neither executed, nor failed,
nor skipped), contradicting the claim that a failing task with
`fail_on_error=false` never stops the run. -/
theorem missing_type_stops_despite_fail_on_error_false :
    ((c1Env.tasks_config.get? 0).map (fun tc => tc.fail_on_error)) = some false
    ∧ c1Env.stop_on_first_error = true
    ∧ (runEngine c1Env idleBeh).failedTasks = [("t1", "缺少type字段")]
    ∧ (runEngine c1Env idleBeh).executedTasks = []
    ∧ (runEngine c1Env idleBeh).skippedTasks = []
    ∧ (runEngine c1Env idleBeh).exitCode = 1 := by
  decide

/-- C1 as amended: for a non-skipped, enabled task, the per-task loop
breaks exactly when the task fails and the stop policy applies, where the
policy is: for a task failing because its spec lacks a type tag,
`stop_on_first_error` alone decides; for a task whose `execute` returns
failure or raises, `fail_on_error` and `stop_on_first_error` must both be
true. In every other case the loop proceeds to the next task. -/
theorem abort_policy (env : Env) (beh : Behavior) (resumeIdx idx : Nat)
    (tc : TaskConfig) (ls : LoopState)
    (hskip : ((env.resume_state.isSome || env.from_task.isSome)
              && decide (idx < resumeIdx)) = false)
    (hen : tc.enabled = true) :
    (processTask env beh resumeIdx idx tc ls).isBrk = true ↔
      ((strTruthy tc.type = false ∧ env.stop_on_first_error = true)
       ∨ (strTruthy tc.type = true ∧ execFails (beh.exec idx) = true
          ∧ tc.fail_on_error = true ∧ env.stop_on_first_error = true)) := by
  unfold processTask
  simp only [hskip, hen, Bool.false_eq_true, if_false, Bool.not_true, Bool.true_eq_false]
  cases hty : strTruthy tc.type with
  | false =>
      cases hstop : env.stop_on_first_error <;>
        simp [StepOut.isBrk, hstop]
  | true =>
      simp only [Bool.not_true, Bool.false_eq_true, if_false]
      cases hex : beh.exec idx with
      | exn m =>
          cases hfoe : tc.fail_on_error <;> cases hstop : env.stop_on_first_error <;>
            simp [StepOut.isBrk, execFails, hfoe, hstop]
      | ok success message =>
          cases success with
          | true => simp [StepOut.isBrk, execFails]
          | false =>
              cases hfoe : tc.fail_on_error <;> cases hstop : env.stop_on_first_error <;>
                simp [StepOut.isBrk, execFails, hfoe, hstop]

/-- Witness for the amended C1: the loop breaks at a concrete non-skipped,
enabled, type-less task under `stop_on_first_error = true` even though its
`fail_on_error` is false. -/
theorem abort_policy_witness :
    (processTask c1Env idleBeh 0 1
      { name := some "t1", type := none, enabled := true, fail_on_error := false }
      (initLoopState [] none [])).isBrk = true :=
  (abort_policy c1Env idleBeh 0 1
    { name := some "t1", type := none, enabled := true, fail_on_error := false }
    (initLoopState [] none []) (by decide) rfl).mpr
    (Or.inl ⟨rfl, rfl⟩)

/-- The resume-point rule in the spec's words: the 1-based index of the
first TaskState whose status is pending, running, or failed; task 1 when
no entry qualifies (in particular when every entry is success). -/
def specResumePoint (ts : List TaskState) : Nat :=
  match ts.findIdx?
    (fun t => t.status == "pending" || t.status == "running" || t.status == "failed") with
  | some i => i + 1
  | none => 1

theorem findResumePointFrom_eq (ts : List TaskState) : ∀ n : Nat,
    findResumePointFrom n ts =
      match ts.findIdx?
        (fun t => t.status == "pending" || t.status == "running" || t.status == "failed") with
      | some i => n + i + 1
      | none => 1 := by
  induction ts with
  | nil => intro n; simp [findResumePointFrom]
  | cons t rest ih =>
      intro n
      rw [List.findIdx?_cons]
      by_cases h : t.status = "failed" ∨ t.status = "running" ∨ t.status = "pending"
      · have hb : (t.status == "pending" || t.status == "running"
            || t.status == "failed") = true := by
          rcases h with h | h | h <;> simp [h]
        simp [findResumePointFrom, h, hb]
      · have hb : (t.status == "pending" || t.status == "running"
            || t.status == "failed") = false := by
          push_neg at h
          simp [h.1, h.2.1, h.2.2]
        rw [findResumePointFrom, if_neg h, ih (n + 1), hb]
        cases hf : rest.findIdx?
            (fun t => t.status == "pending" || t.status == "running"
              || t.status == "failed") with
        | none => simp [hf]
        | some i => simp [hf]; omega

/-- Resume snapshot of the claim's example: 4 tasks with statuses
[success, success, failed, pending], the first two having exported
variables. -/
def exTaskState (n st : String) (vars : List (String × String)) : TaskState :=
  { name := n, type := "command", status := st, start_time := none
    end_time := none, message := "", exported_context := vars }

def exMeta : Metadata :=
  { config_file := "config.yaml"
    config_hash := "cafe0001"
    run_id := "20250101_000000"
    start_time := "2025-01-01 00:00:00"
    last_update := "2025-01-01 00:10:00"
    workflow_status := "failed"
    stop_on_first_error := true
    total_tasks := 4 }

def exSnap : WorkflowState :=
  { version := "1.0"
    metadata := exMeta
    tasks :=
      [ exTaskState "t1" "success" [("v", "1")]
      , exTaskState "t2" "success" [("v", "2")]
      , exTaskState "t3" "failed" []
      , exTaskState "t4" "pending" [] ]
    workflow_context := [("t1", [("v", "1")]), ("t2", [("v", "2")])] }

def exCfg : List TaskConfig :=
  [ { name := some "t1", type := some "command" }
  , { name := some "t2", type := some "command" }
  , { name := some "t3", type := some "command" }
  , { name := some "t4", type := some "command" } ]

def exResumeEnv : Env := { tasks_config := exCfg, resume_state := some exSnap }

/-- C2: resume semantics: (1) `_find_resume_point` computes exactly
the spec's resume-point rule (first pending/running/failed entry, 1-based;
task 1 when all succeeded); (2) in resume mode a task before the resume
point is skipped by the loop step without executing and without touching
anything but the skipped list; (3) on the claim's 4-task example with
statuses [success, success, failed, pending], only tasks 3 and 4 execute,
tasks 1-2 are skipped with their recorded TaskState entries and exported
variables unchanged. -/
theorem resume_semantics :
    (∀ ts : List TaskState, findResumePoint ts = specResumePoint ts)
    ∧ (∀ (env : Env) (beh : Behavior) (resumeIdx idx : Nat) (tc : TaskConfig)
        (ls : LoopState), env.resume_state.isSome = true → idx < resumeIdx →
        processTask env beh resumeIdx idx tc ls
          = .cont { ls with skippedTasks := ls.skippedTasks ++ [effectiveName idx tc] })
    ∧ ((runEngine exResumeEnv idleBeh).executedTasks = ["t3", "t4"]
       ∧ (runEngine exResumeEnv idleBeh).skippedTasks = ["t1", "t2"]
       ∧ ((runEngine exResumeEnv idleBeh).currentState.map (fun s => s.tasks.take 2))
           = some (exSnap.tasks.take 2)
       ∧ ((runEngine exResumeEnv idleBeh).currentState.map
            (fun s => (alGet s.workflow_context "t1", alGet s.workflow_context "t2")))
           = some (some [("v", "1")], some [("v", "2")])) := by
  refine ⟨?_, ?_, ?_⟩
  · intro ts
    rw [findResumePoint, findResumePointFrom_eq ts 0, specResumePoint]
    cases ts.findIdx?
      (fun t => t.status == "pending" || t.status == "running"
        || t.status == "failed") <;> simp
  · intro env beh resumeIdx idx tc ls hres hlt
    unfold processTask
    rw [if_pos]
    simp [hres, hlt]
  · decide

/-- Witness for C2 at concrete inputs: the resume point of the example
snapshot is task 3, and a step strictly before it only appends to the
skipped list. -/
theorem resume_semantics_witness :
    findResumePoint exSnap.tasks = specResumePoint exSnap.tasks
    ∧ processTask exResumeEnv idleBeh 3 1 { name := some "t1", type := some "command" }
        (initLoopState exSnap.workflow_context (some exSnap) [])
      = .cont { initLoopState exSnap.workflow_context (some exSnap) [] with
                skippedTasks := [effectiveName 1 { name := some "t1", type := some "command" }] } := by
  constructor
  · exact resume_semantics.1 exSnap.tasks
  · exact resume_semantics.2.1 exResumeEnv idleBeh 3 1
      { name := some "t1", type := some "command" }
      (initLoopState exSnap.workflow_context (some exSnap) []) rfl (by decide)

theorem findTaskIndexFrom_eq_neg_one_iff (nm : String) :
    ∀ (cfgs : List TaskConfig) (idx : Nat),
      findTaskIndexFrom idx nm cfgs = -1 ↔ nm ∉ effectiveNamesFrom idx cfgs := by
  intro cfgs
  induction cfgs with
  | nil => intro idx; simp [findTaskIndexFrom, effectiveNamesFrom]
  | cons tc rest ih =>
      intro idx
      unfold findTaskIndexFrom effectiveNamesFrom
      by_cases h : effectiveName idx tc = nm
      · have hidx : (idx : Int) ≠ -1 := by omega
        simp [h, hidx]
      · have hne : nm ≠ effectiveName idx tc := fun hh => h hh.symm
        simp [h, hne, ih (idx + 1)]

def abcCfg : List TaskConfig :=
  [ { name := some "A", type := some "command" }
  , { name := some "B", type := some "command" }
  , { name := some "C", type := some "command" } ]

def fromBEnv : Env :=
  { tasks_config := abcCfg, from_task := some "B", hasStateManager := false }

/-- C5: named-start mode: (1) when the requested name matches no
spec's effective name, `run` returns 1 with a not-found result that
carries every known effective task name, and executes, fails and skips
nothing, persisting nothing; (2) on [A,B,C] with start name "B" the
resolved resume point is index 2, task A is skipped and tasks B and C run
(no prior snapshot involved). -/
theorem named_start_semantics :
    (∀ (env : Env) (beh : Behavior) (nm : String),
      env.resume_state = none → env.from_task = some nm →
      env.tasks_config ≠ [] → firstDuplicate env.tasks_config = none →
      nm ∉ effectiveNames env.tasks_config →
      runEngine env beh =
        { exitCode := 1, executedTasks := [], failedTasks := [], skippedTasks := []
          workflow_context := [], currentState := none, saves := []
          error := some (.taskNotFound nm (effectiveNames env.tasks_config)) })
    ∧ (findTaskIndex "B" abcCfg = 2
       ∧ (runEngine fromBEnv idleBeh).skippedTasks = ["A"]
       ∧ (runEngine fromBEnv idleBeh).executedTasks = ["B", "C"]
       ∧ (runEngine fromBEnv idleBeh).exitCode = 0) := by
  constructor
  · intro env beh nm hres hfrom hne hdup hnotmem
    have hempty : env.tasks_config.isEmpty = false := by
      cases hc : env.tasks_config with
      | nil => exact absurd hc hne
      | cons a l => simp [hc]
    have hidx : findTaskIndex nm env.tasks_config = -1 :=
      (findTaskIndexFrom_eq_neg_one_iff nm env.tasks_config 1).mpr hnotmem
    unfold runEngine
    rw [hempty, hdup, hres, hfrom]
    simp only [Bool.false_eq_true, if_false, hidx]
    rfl
  · decide

/-- Witness for C5: starting from the absent name "Z" on [A,B,C] yields
the not-found result enumerating A, B, C. -/
theorem named_start_semantics_witness :
    runEngine { tasks_config := abcCfg, from_task := some "Z" } idleBeh =
      { exitCode := 1, executedTasks := [], failedTasks := [], skippedTasks := []
        workflow_context := [], currentState := none, saves := []
        error := some (.taskNotFound "Z" (effectiveNames abcCfg)) } :=
  named_start_semantics.1 { tasks_config := abcCfg, from_task := some "Z" } idleBeh "Z"
    rfl rfl (by decide) (by decide) (by decide)

theorem updateAndSave_isSome (env : Env) (ls : LoopState) (tidx : Nat)
    (status message : String) (vars : List (String × String)) :
    (updateAndSave env ls tidx status message vars).currentState.isSome
      = ls.currentState.isSome := by
  unfold updateAndSave
  cases hs : env.hasStateManager with
  | false => simp
  | true =>
      cases h : ls.currentState with
      | none => simp [h]
      | some st => simp [h]

theorem updateAndSaveSuccess_isSome (env : Env) (ls : LoopState) (tidx : Nat)
    (message : String) (vars : List (String × String)) :
    (updateAndSaveSuccess env ls tidx message vars).currentState.isSome
      = ls.currentState.isSome := by
  unfold updateAndSaveSuccess
  cases hs : env.hasStateManager with
  | false => simp
  | true =>
      cases h : ls.currentState with
      | none => simp [h]
      | some st => simp [h]

theorem onSuccess_isSome (env : Env) (idx : Nat) (name message : String)
    (exported : List (String × String)) (ls : LoopState) :
    (onSuccess env idx name message exported ls).currentState.isSome
      = ls.currentState.isSome := by
  unfold onSuccess
  rw [updateAndSaveSuccess_isSome]

theorem processTask_isSome (env : Env) (beh : Behavior) (resumeIdx idx : Nat)
    (tc : TaskConfig) (ls : LoopState) :
    (processTask env beh resumeIdx idx tc ls).loopState.currentState.isSome
      = ls.currentState.isSome := by
  unfold processTask
  repeat' split
  all_goals
    simp [StepOut.loopState, updateAndSave_isSome, updateAndSaveSuccess_isSome,
      onSuccess_isSome]

theorem runLoop_isSome (env : Env) (beh : Behavior) (resumeIdx : Nat) :
    ∀ (cfgs : List TaskConfig) (idx : Nat) (ls : LoopState),
      (runLoop env beh resumeIdx idx cfgs ls).currentState.isSome
        = ls.currentState.isSome := by
  intro cfgs
  induction cfgs with
  | nil => intro idx ls; rfl
  | cons tc rest ih =>
      intro idx ls
      unfold runLoop
      cases hp : processTask env beh resumeIdx idx tc ls with
      | cont ls' =>
          have hstep := processTask_isSome env beh resumeIdx idx tc ls
          rw [hp] at hstep
          rw [ih (idx + 1) ls']
          exact hstep
      | brk ls' =>
          have hstep := processTask_isSome env beh resumeIdx idx tc ls
          rw [hp] at hstep
          exact hstep

theorem finishRun_exitCode (env : Env) (ls : LoopState) :
    (finishRun env ls).exitCode = (finishRun env ls).failedTasks.length := rfl

theorem finishRun_persists (env : Env) (ls : LoopState) (st : WorkflowState)
    (hsm : env.hasStateManager = true) (hcs : ls.currentState = some st) :
    ∃ st2, (finishRun env ls).currentState = some st2
      ∧ (finishRun env ls).saves.getLast? = some st2
      ∧ st2.metadata.workflow_status
          = (if (finishRun env ls).failedTasks.length = 0 then "success" else "failed") := by
  unfold finishRun
  rw [if_pos hsm, hcs]
  refine ⟨_, rfl, getLast?_append_singleton _ _, ?_⟩
  by_cases h : ls.failedTasks.length = 0 <;> simp [h]

/-- C4: for a non-empty task list with unique effective names, in any
mode that reaches the loop (fresh, resume, or a named start whose name
resolves), `run` returns exactly the recorded failed-task count, and when
a state manager is present the final persisted snapshot's workflow_status
is "success" iff that count is zero and "failed" otherwise. -/
theorem run_returns_failure_count (env : Env) (beh : Behavior)
    (hne : env.tasks_config ≠ [])
    (hdup : firstDuplicate env.tasks_config = none)
    (hmode : env.resume_state = none → ∀ nm, env.from_task = some nm →
      findTaskIndex nm env.tasks_config ≠ -1) :
    (runEngine env beh).exitCode = (runEngine env beh).failedTasks.length
    ∧ (env.hasStateManager = true →
        ∃ st, (runEngine env beh).currentState = some st
          ∧ (runEngine env beh).saves.getLast? = some st
          ∧ st.metadata.workflow_status
              = (if (runEngine env beh).failedTasks.length = 0
                 then "success" else "failed")) := by
  have hempty : env.tasks_config.isEmpty = false := by
    cases hc : env.tasks_config with
    | nil => exact absurd hc hne
    | cons a l => simp [hc]
  cases hres : env.resume_state with
  | some ss =>
      have hrun : runEngine env beh
          = finishRun env (runLoop env beh (findResumePoint ss.tasks) 1
              env.tasks_config (initLoopState ss.workflow_context (some ss) [])) := by
        unfold runEngine
        rw [hempty, hdup, hres]
        rfl
      rw [hrun]
      refine ⟨finishRun_exitCode _ _, ?_⟩
      intro hsm
      have hsome : (runLoop env beh (findResumePoint ss.tasks) 1 env.tasks_config
          (initLoopState ss.workflow_context (some ss) [])).currentState.isSome = true := by
        rw [runLoop_isSome]
        rfl
      obtain ⟨stc, hstc⟩ := Option.isSome_iff_exists.mp hsome
      exact finishRun_persists env _ stc hsm hstc
  | none =>
      cases hfrom : env.from_task with
      | some nm =>
          have hneq := hmode hres nm hfrom
          have hrun : runEngine env beh
              = finishRun env (runLoop env beh
                  (findTaskIndex nm env.tasks_config).toNat 1 env.tasks_config
                  (if env.hasStateManager = true
                   then initLoopState []
                     (some (createState env.tasks_config env.stop_on_first_error
                        env.config_file env.config_hash env.run_id env.now))
                     [createState env.tasks_config env.stop_on_first_error
                        env.config_file env.config_hash env.run_id env.now]
                   else initLoopState [] none [])) := by
            unfold runEngine
            rw [hempty, hdup, hres, hfrom]
            simp only [hneq, if_false]
            rfl
          rw [hrun]
          refine ⟨finishRun_exitCode _ _, ?_⟩
          intro hsm
          rw [if_pos hsm]
          have hsome : (runLoop env beh (findTaskIndex nm env.tasks_config).toNat 1
              env.tasks_config (initLoopState []
                (some (createState env.tasks_config env.stop_on_first_error
                  env.config_file env.config_hash env.run_id env.now))
                [createState env.tasks_config env.stop_on_first_error
                  env.config_file env.config_hash env.run_id env.now])).currentState.isSome
              = true := by
            rw [runLoop_isSome]
            rfl
          obtain ⟨stc, hstc⟩ := Option.isSome_iff_exists.mp hsome
          exact finishRun_persists env _ stc hsm hstc
      | none =>
          have hrun : runEngine env beh
              = finishRun env (runLoop env beh 0 1 env.tasks_config
                  (if env.hasStateManager = true
                   then initLoopState []
                     (some (createState env.tasks_config env.stop_on_first_error
                        env.config_file env.config_hash env.run_id env.now))
                     [createState env.tasks_config env.stop_on_first_error
                        env.config_file env.config_hash env.run_id env.now]
                   else initLoopState [] none [])) := by
            unfold runEngine
            rw [hempty, hdup, hres, hfrom]
            rfl
          rw [hrun]
          refine ⟨finishRun_exitCode _ _, ?_⟩
          intro hsm
          rw [if_pos hsm]
          have hsome : (runLoop env beh 0 1 env.tasks_config
              (initLoopState []
                (some (createState env.tasks_config env.stop_on_first_error
                  env.config_file env.config_hash env.run_id env.now))
                [createState env.tasks_config env.stop_on_first_error
                  env.config_file env.config_hash env.run_id env.now])).currentState.isSome
              = true := by
            rw [runLoop_isSome]
            rfl
          obtain ⟨stc, hstc⟩ := Option.isSome_iff_exists.mp hsome
          exact finishRun_persists env _ stc hsm hstc

def mixedEnv : Env :=
  { tasks_config :=
      [ { name := some "good", type := some "command" }
      , { name := some "bad", type := some "command", fail_on_error := false } ] }

def mixedBeh : Behavior :=
  { exec := fun i => if i = 1 then .ok true "done" else .ok false "boom"
    exportCtx := fun _ => .ok [] }

/-- Witness for C4: a concrete 2-task run with one failure returns 1 and
persists workflow_status "failed". -/
theorem run_returns_failure_count_witness :
    (runEngine mixedEnv mixedBeh).exitCode
        = (runEngine mixedEnv mixedBeh).failedTasks.length
    ∧ (mixedEnv.hasStateManager = true →
        ∃ st, (runEngine mixedEnv mixedBeh).currentState = some st
          ∧ (runEngine mixedEnv mixedBeh).saves.getLast? = some st
          ∧ st.metadata.workflow_status
              = (if (runEngine mixedEnv mixedBeh).failedTasks.length = 0
                 then "success" else "failed")) :=
  run_returns_failure_count mixedEnv mixedBeh (by decide) (by decide)
    (fun _ nm h => Option.noConfusion h)

def xyCfg (x y : String) : List TaskConfig :=
  [ { name := some x, type := some "command" }
  , { name := some y, type := some "command" } ]

def xyEnv (x y : String) : Env :=
  { tasks_config := xyCfg x y, hasStateManager := false }

def xyBeh (vx vy : String) : Behavior :=
  { exec := fun _ => .ok true "done"
    exportCtx := fun i => if i = 1 then .ok [("path", vx)] else .ok [("path", vy)] }

theorem xy_firstDuplicate (x y : String) (h : x ≠ y) :
    firstDuplicate (xyEnv x y).tasks_config = none := by
  show firstDuplicate (xyCfg x y) = none
  simp [firstDuplicate, firstDuplicateFrom, xyCfg, effectiveName, Ne.symm h]

theorem xy_wc (x y vx vy : String) (h : x ≠ y) :
    (runEngine (xyEnv x y) (xyBeh vx vy)).workflow_context
      = mergeExports (mergeExports [] x [("path", vx)]) y [("path", vy)] := by
  unfold runEngine
  rw [xy_firstDuplicate x y h]
  rfl

/-- C7: exported variables are merged only under the exporting task's
own name: after a run in which two distinct tasks X and Y each export a
variable named "path", `workflow_context[X]["path"]` and
`workflow_context[Y]["path"]` hold the respective values independently —
neither export overwrote the other. -/
theorem exports_namespaced (x y vx vy : String) (hxy : x ≠ y) :
    ctxGet2 (runEngine (xyEnv x y) (xyBeh vx vy)).workflow_context x "path" = some vx
    ∧ ctxGet2 (runEngine (xyEnv x y) (xyBeh vx vy)).workflow_context y "path" = some vy := by
  rw [xy_wc x y vx vy hxy]
  constructor
  · rw [ctxGet2_mergeExports_other _ _ _ _ _ hxy]
    exact ctxGet2_mergeExports_own [] x "path" vx
  · exact ctxGet2_mergeExports_own _ y "path" vy

/-- Witness for C7 at concrete names and values. -/
theorem exports_namespaced_witness :
    ctxGet2 (runEngine (xyEnv "X" "Y") (xyBeh "p1" "p2")).workflow_context "X" "path"
      = some "p1"
    ∧ ctxGet2 (runEngine (xyEnv "X" "Y") (xyBeh "p1" "p2")).workflow_context "Y" "path"
      = some "p2" :=
  exports_namespaced "X" "Y" "p1" "p2" (by decide)

theorem updateAndSave_executed (env : Env) (ls : LoopState) (tidx : Nat)
    (status message : String) (vars : List (String × String)) :
    (updateAndSave env ls tidx status message vars).executedTasks
      = ls.executedTasks := by
  unfold updateAndSave
  cases hs : env.hasStateManager with
  | false => simp
  | true => cases h : ls.currentState with
    | none => simp [h]
    | some st => simp [h]

theorem updateAndSave_failed (env : Env) (ls : LoopState) (tidx : Nat)
    (status message : String) (vars : List (String × String)) :
    (updateAndSave env ls tidx status message vars).failedTasks
      = ls.failedTasks := by
  unfold updateAndSave
  cases hs : env.hasStateManager with
  | false => simp
  | true => cases h : ls.currentState with
    | none => simp [h]
    | some st => simp [h]

theorem updateAndSave_wc (env : Env) (ls : LoopState) (tidx : Nat)
    (status message : String) (vars : List (String × String)) :
    (updateAndSave env ls tidx status message vars).wc = ls.wc := by
  unfold updateAndSave
  cases hs : env.hasStateManager with
  | false => simp
  | true => cases h : ls.currentState with
    | none => simp [h]
    | some st => simp [h]

theorem updateAndSaveSuccess_executed (env : Env) (ls : LoopState) (tidx : Nat)
    (message : String) (vars : List (String × String)) :
    (updateAndSaveSuccess env ls tidx message vars).executedTasks
      = ls.executedTasks := by
  unfold updateAndSaveSuccess
  cases hs : env.hasStateManager with
  | false => simp
  | true => cases h : ls.currentState with
    | none => simp [h]
    | some st => simp [h]

theorem updateAndSaveSuccess_failed (env : Env) (ls : LoopState) (tidx : Nat)
    (message : String) (vars : List (String × String)) :
    (updateAndSaveSuccess env ls tidx message vars).failedTasks
      = ls.failedTasks := by
  unfold updateAndSaveSuccess
  cases hs : env.hasStateManager with
  | false => simp
  | true => cases h : ls.currentState with
    | none => simp [h]
    | some st => simp [h]

theorem updateAndSaveSuccess_wc (env : Env) (ls : LoopState) (tidx : Nat)
    (message : String) (vars : List (String × String)) :
    (updateAndSaveSuccess env ls tidx message vars).wc = ls.wc := by
  unfold updateAndSaveSuccess
  cases hs : env.hasStateManager with
  | false => simp
  | true => cases h : ls.currentState with
    | none => simp [h]
    | some st => simp [h]

theorem updateTaskState_length (st : WorkflowState) (i : Nat)
    (status message : String) (vars : List (String × String)) (now : String) :
    (updateTaskState st i status message vars now).tasks.length = st.tasks.length := by
  unfold updateTaskState
  by_cases h : st.tasks.length ≤ i
  · rw [if_pos h]
  · rw [if_neg h]
    cases hg : st.tasks.get? i with
    | none => rfl
    | some ts => simp

theorem updateTaskState_status (st : WorkflowState) (i : Nat)
    (status message : String) (vars : List (String × String)) (now : String)
    (h : i < st.tasks.length) :
    ((updateTaskState st i status message vars now).tasks.get? i).map
      (fun t => t.status) = some status := by
  unfold updateTaskState
  rw [if_neg (by omega)]
  cases hg : st.tasks.get? i with
  | none =>
      exfalso
      rw [List.get?_eq_getElem?, List.getElem?_eq_none_iff] at hg
      omega
  | some ts =>
      simp only
      rw [List.get?_eq_getElem?, List.getElem?_set_eq_of_lt _ (by simpa using h)]
      rfl

/-- C8: when `execute` succeeds but `export_context` raises, the
failure is swallowed: the loop step continues with exactly the result of
a successful task that exported nothing — the task is appended to the
executed list, the failed list is untouched, the workflow context is
unchanged, and (when a snapshot is live and the index is in range) the
task is persisted with status "success". -/
theorem export_failure_swallowed (env : Env) (beh : Behavior)
    (resumeIdx idx : Nat) (tc : TaskConfig) (ls : LoopState)
    (hskip : ((env.resume_state.isSome || env.from_task.isSome)
              && decide (idx < resumeIdx)) = false)
    (hen : tc.enabled = true) (hty : strTruthy tc.type = true)
    (m e : String) (hexec : beh.exec idx = .ok true m)
    (hexp : beh.exportCtx idx = .exn e) :
    processTask env beh resumeIdx idx tc ls
      = .cont (onSuccess env idx (effectiveName idx tc) m []
          { updateAndSave env ls (idx - 1) "running" "" [] with
            executedTasks :=
              (updateAndSave env ls (idx - 1) "running" "" []).executedTasks
                ++ [effectiveName idx tc] })
    ∧ (processTask env beh resumeIdx idx tc ls).loopState.failedTasks
        = ls.failedTasks
    ∧ (processTask env beh resumeIdx idx tc ls).loopState.executedTasks
        = ls.executedTasks ++ [effectiveName idx tc]
    ∧ (processTask env beh resumeIdx idx tc ls).loopState.wc = ls.wc
    ∧ (∀ st, env.hasStateManager = true → ls.currentState = some st →
        idx - 1 < st.tasks.length →
        ((processTask env beh resumeIdx idx tc ls).loopState.currentState.bind
          (fun s => s.tasks.get? (idx - 1))).map (fun t => t.status)
          = some "success") := by
  have hmain : processTask env beh resumeIdx idx tc ls
      = .cont (onSuccess env idx (effectiveName idx tc) m []
          { updateAndSave env ls (idx - 1) "running" "" [] with
            executedTasks :=
              (updateAndSave env ls (idx - 1) "running" "" []).executedTasks
                ++ [effectiveName idx tc] }) := by
    unfold processTask
    simp only [hskip, hen, hty, Bool.false_eq_true, if_false, Bool.not_true,
      Bool.true_eq_false]
    rw [hexec, hexp]
    rfl
  refine ⟨hmain, ?_, ?_, ?_, ?_⟩
  · rw [hmain]
    simp [StepOut.loopState, onSuccess, updateAndSaveSuccess_failed,
      updateAndSave_failed]
  · rw [hmain]
    simp [StepOut.loopState, onSuccess, updateAndSaveSuccess_executed,
      updateAndSave_executed]
  · rw [hmain]
    simp [StepOut.loopState, onSuccess, updateAndSaveSuccess_wc,
      mergeExports_nil, updateAndSave_wc]
  · intro st hsm hcs hlen
    rw [hmain]
    simp only [StepOut.loopState]
    unfold onSuccess updateAndSaveSuccess
    rw [if_pos hsm]
    have hcs1 : (updateAndSave env ls (idx - 1) "running" "" []).currentState
        = some { updateTaskState st (idx - 1) "running" "" [] env.now with
            metadata := { (updateTaskState st (idx - 1) "running" "" [] env.now).metadata
              with last_update := env.now } } := by
      unfold updateAndSave
      rw [if_pos hsm, hcs]
    simp only [hcs1]
    have hlen2 : idx - 1
        < ({ updateTaskState st (idx - 1) "running" "" [] env.now with
            metadata := { (updateTaskState st (idx - 1) "running" "" [] env.now).metadata
              with last_update := env.now } } : WorkflowState).tasks.length := by
      show idx - 1 < (updateTaskState st (idx - 1) "running" "" [] env.now).tasks.length
      rw [updateTaskState_length]
      exact hlen
    have := updateTaskState_status
      { updateTaskState st (idx - 1) "running" "" [] env.now with
        metadata := { (updateTaskState st (idx - 1) "running" "" [] env.now).metadata
          with last_update := env.now } }
      (idx - 1) "success" m [] env.now hlen2
    simpa using this

def expEnv : Env :=
  { tasks_config := [ { name := some "t1", type := some "command" } ] }

def expBeh : Behavior :=
  { exec := fun _ => .ok true "done"
    exportCtx := fun _ => .exn "collect failed" }

/-- Witness for C8 at a concrete one-task run whose export raises. -/
theorem export_failure_swallowed_witness :
    (processTask expEnv expBeh 0 1 { name := some "t1", type := some "command" }
        (initLoopState [] (some (createState expEnv.tasks_config true
          "config.yaml" "00000000" "run" "now")) [])).loopState.failedTasks = []
    ∧ (processTask expEnv expBeh 0 1 { name := some "t1", type := some "command" }
        (initLoopState [] (some (createState expEnv.tasks_config true
          "config.yaml" "00000000" "run" "now")) [])).loopState.executedTasks = ["t1"]
    ∧ ((processTask expEnv expBeh 0 1 { name := some "t1", type := some "command" }
        (initLoopState [] (some (createState expEnv.tasks_config true
          "config.yaml" "00000000" "run" "now")) [])).loopState.currentState.bind
          (fun s => s.tasks.get? 0)).map (fun t => t.status) = some "success" := by
  have h := export_failure_swallowed expEnv expBeh 0 1
    { name := some "t1", type := some "command" }
    (initLoopState [] (some (createState expEnv.tasks_config true
      "config.yaml" "00000000" "run" "now")) [])
    (by decide) rfl rfl "done" "collect failed" rfl rfl
  exact ⟨h.2.1, h.2.2.1, h.2.2.2.2
    (createState expEnv.tasks_config true "config.yaml" "00000000" "run" "now")
    rfl rfl (by decide)⟩

end Yawe
